import Mathlib

/-!
Shallow embedding of `src/third_party/wiredtiger/src/block/block_tiered.c`:
the tiered block-file lifecycle manager (`__wt_block_tiered_flush`,
`__wt_block_tiered_load`, `__wt_block_tiered_newfile`).

External I/O primitives (`__wt_scr_alloc`, `__wt_close`, `__wt_buf_fmt`,
`__wt_open`, `__wt_desc_write`, `__wt_block_ckpt_init`) are not part of the
sampled source; each is represented by one outcome value in an `Env` record,
consulted exactly once per call, mirroring the straight-line WT_ERR
control flow of the C code.  `uint32_t` arithmetic is `Nat` with `% 2 ^ 32`.
-/

/-- WiredTiger error return codes: `0` is success, nonzero is an error.
We keep only the nonzero codes here and use `Except` for control flow. -/
abbrev Err := Nat

/-- The character for a single decimal digit `n < 10` (printf rendering). -/
def decDigitChar (n : Nat) : Char := Char.ofNat (48 + n)

/-- Fuel-bounded decimal digit list of `n`, most significant first.
`fuel = 10` suffices for every `uint32_t` value (`2 ^ 32 < 10 ^ 10`). -/
def decDigitsF : Nat → Nat → List Char
  | 0, _ => []
  | fuel + 1, n =>
    if n < 10 then [decDigitChar n]
    else decDigitsF fuel (n / 10) ++ [decDigitChar (n % 10)]

/-- Decimal digits of a `uint32_t` value. -/
def decDigits (n : Nat) : List Char := decDigitsF 10 n

/-- printf `"%08" PRIu32` of `n`: decimal, left zero-padded to a MINIMUM
field width of 8 (values with more than 8 digits are printed in full). -/
def fmtU32w8 (n : Nat) : String :=
  let ds := decDigits n
  String.mk (List.replicate (8 - ds.length) '0' ++ ds)

/-- The filename built by `__wt_buf_fmt(session, tmp, "%s.%08" PRIu32,
block->name, block->objectid)` (block_tiered.c:68). -/
def blockFilename (name : String) (objectid : Nat) : String :=
  name ++ "." ++ fmtU32w8 objectid

/-- The live checkpoint state of a block (`block->live`): either an
initialized instance carrying its tag, or destroyed and not rebuilt. -/
inductive LiveCkpt where
  | ready (tag : String)
  | destroyed
deriving DecidableEq, Repr

/-- `WT_BLOCK_CKPT` as consumed by `__wt_block_tiered_load`: the only field
the sampled code reads is `root_objectid` (block_tiered.c:38). -/
structure WT_BLOCK_CKPT where
  root_objectid : Nat
deriving DecidableEq, Repr

/-- The fields of `WT_BLOCK` that the sampled code touches: stable `name`,
current `objectid` (`uint32_t`), the open file handle (`fh`, identified here
by the filename it was opened on, `none` when closed), `allocsize`,
`file_flags`, logical `size`, the tiering participation flag `has_objects`,
and the live checkpoint state `live`. -/
structure WT_BLOCK where
  name : String
  objectid : Nat
  fh : Option String
  allocsize : Nat
  file_flags : Nat
  size : Nat
  has_objects : Bool
  live : LiveCkpt
deriving DecidableEq, Repr

instance {ε α : Type} [DecidableEq ε] [DecidableEq α] :
    DecidableEq (Except ε α) := fun x y =>
  match x, y with
  | .ok a, .ok b =>
    if h : a = b then isTrue (by rw [h])
    else isFalse (by intro hh; cases hh; exact h rfl)
  | .ok _, .error _ => isFalse (by intro hh; cases hh)
  | .error _, .ok _ => isFalse (by intro hh; cases hh)
  | .error e, .error f =>
    if h : e = f then isTrue (by rw [h])
    else isFalse (by intro hh; cases hh; exact h rfl)

/-- Outcomes of the external primitives consulted by one call of
`__wt_block_tiered_newfile`, in program order: scratch-buffer allocation
(line 58), close of the old handle (line 64), filename formatting (line 68),
file open inside the bucket-storage routing scope (lines 71-74), descriptor
write (line 76), and live-checkpoint re-initialization (line 80).  Each is
one `Except` value because the C code invokes each primitive at most once
per call (straight-line `WT_ERR` sequencing, no retry loop). -/
structure Env where
  scr_alloc : Except Err Unit
  close_ret : Except Err Unit
  buf_fmt : Except Err Unit
  open_ret : Except Err Unit
  desc_write : Except Err Unit
  ckpt_init : Except Err Unit
deriving DecidableEq, Repr

/-- `__wt_block_tiered_newfile` (block_tiered.c:50-85).  Effects in order:
scratch alloc; close `block->fh`; `++block->objectid` (uint32_t, wraps);
format `"%s.%08" PRIu32`; open the new file (routing scope); write the
descriptor; `block->size = block->allocsize`; destroy and re-init
`block->live` tagged `"live"`.  Every step short-circuits to the `err`
label on failure, returning that step's error. -/
def newfile (env : Env) (b : WT_BLOCK) : Except Err Unit × WT_BLOCK :=
  match env.scr_alloc with
  | .error e => (.error e, b)
  | .ok _ =>
    match env.close_ret with
    | .error e => (.error e, b)
    | .ok _ =>
      let b := { b with fh := none }
      let b := { b with objectid := (b.objectid + 1) % 2 ^ 32 }
      match env.buf_fmt with
      | .error e => (.error e, b)
      | .ok _ =>
        let filename := blockFilename b.name b.objectid
        match env.open_ret with
        | .error e => (.error e, b)
        | .ok _ =>
          let b := { b with fh := some filename }
          match env.desc_write with
          | .error e => (.error e, b)
          | .ok _ =>
            let b := { b with size := b.allocsize }
            let b := { b with live := .destroyed }
            match env.ckpt_init with
            | .error e => (.error e, b)
            | .ok _ => (.ok (), { b with live := .ready "live" })

/-- `__wt_block_tiered_flush` (block_tiered.c:15-24): the cookie out-params
are ignored (`(void)flush_cookie; (void)cookie_size;`, a documented stub)
and the call is a direct tail call to `__wt_block_tiered_newfile`.  The
cookie buffer and size pass through unmodified. -/
def flush (env : Env) (b : WT_BLOCK) (flush_cookie : List Nat)
    (cookie_size : Nat) : Except Err Unit × WT_BLOCK × List Nat × Nat :=
  let r := newfile env b
  (r.1, r.2, flush_cookie, cookie_size)

/-- `__wt_block_tiered_load` (block_tiered.c:30-44): when
`block->has_objects`, seed `block->objectid` from `ci->root_objectid` and
roll to a new file; otherwise do nothing and return 0. -/
def load (env : Env) (b : WT_BLOCK) (ci : WT_BLOCK_CKPT) :
    Except Err Unit × WT_BLOCK :=
  if b.has_objects then
    newfile env { b with objectid := ci.root_objectid }
  else
    (.ok (), b)

/-- All six external outcomes succeed. -/
def envAllOk (env : Env) : Bool :=
  env.scr_alloc.isOk && env.close_ret.isOk && env.buf_fmt.isOk &&
    env.open_ret.isOk && env.desc_write.isOk && env.ckpt_init.isOk

/-- The five outcomes strictly before the live-checkpoint teardown
(everything up to and including the descriptor write) succeed. -/
def envPreCkptOk (env : Env) : Bool :=
  env.scr_alloc.isOk && env.close_ret.isOk && env.buf_fmt.isOk &&
    env.open_ret.isOk && env.desc_write.isOk

/-- The state after one fully successful rollover, as a function of the
starting state: used to phrase the success-path lemmas. -/
def rollState (b : WT_BLOCK) : WT_BLOCK :=
  { b with
    objectid := (b.objectid + 1) % 2 ^ 32
    fh := some (blockFilename b.name ((b.objectid + 1) % 2 ^ 32))
    size := b.allocsize
    live := .ready "live" }

/-- Iterated rollover: the handle after `n` calls of
`__wt_block_tiered_newfile` under the outcomes `env`. -/
def rollN (env : Env) (b : WT_BLOCK) : Nat → WT_BLOCK
  | 0 => b
  | n + 1 => (newfile env (rollN env b n)).2

/-- An environment in which every external primitive succeeds. -/
def envOK : Env :=
  { scr_alloc := .ok (), close_ret := .ok (), buf_fmt := .ok ()
    open_ret := .ok (), desc_write := .ok (), ckpt_init := .ok () }

-- Success-path characterization -------------------------------------------

theorem newfile_allOk (env : Env) (b : WT_BLOCK) (h : envAllOk env = true) :
    newfile env b = (.ok (), rollState b) := by
  obtain ⟨s, c, f, o, d, i⟩ := env
  simp only [envAllOk, Bool.and_eq_true, Except.isOk, Except.toBool] at h
  obtain ⟨⟨⟨⟨⟨hs, hc⟩, hf⟩, ho⟩, hd⟩, hi⟩ := h
  cases s <;> cases c <;> cases f <;> cases o <;> cases d <;> cases i <;>
    simp_all [newfile, rollState]

theorem newfile_ok_iff (env : Env) (b : WT_BLOCK) :
    (newfile env b).1 = .ok () ↔ envAllOk env = true := by
  obtain ⟨s, c, f, o, d, i⟩ := env
  cases s <;> cases c <;> cases f <;> cases o <;> cases d <;> cases i <;>
    simp [newfile, envAllOk, Except.isOk, Except.toBool]

-- Failure-path characterization --------------------------------------------

theorem newfile_scr_err (env : Env) (b : WT_BLOCK) (e : Err)
    (hs : env.scr_alloc = .error e) :
    newfile env b = (.error e, b) := by
  obtain ⟨s, c, f, o, d, i⟩ := env
  simp only at hs
  subst hs
  rfl

theorem newfile_close_err (env : Env) (b : WT_BLOCK) (e : Err)
    (hs : env.scr_alloc = .ok ()) (hc : env.close_ret = .error e) :
    newfile env b = (.error e, b) := by
  obtain ⟨s, c, f, o, d, i⟩ := env
  simp only at hs hc
  subst hs; subst hc
  rfl

theorem newfile_fmt_err (env : Env) (b : WT_BLOCK) (e : Err)
    (hs : env.scr_alloc = .ok ()) (hc : env.close_ret = .ok ())
    (hf : env.buf_fmt = .error e) :
    newfile env b =
      (.error e,
        { b with fh := none, objectid := (b.objectid + 1) % 2 ^ 32 }) := by
  obtain ⟨s, c, f, o, d, i⟩ := env
  simp only at hs hc hf
  subst hs; subst hc; subst hf
  rfl

theorem newfile_open_err (env : Env) (b : WT_BLOCK) (e : Err)
    (hs : env.scr_alloc = .ok ()) (hc : env.close_ret = .ok ())
    (hf : env.buf_fmt = .ok ()) (ho : env.open_ret = .error e) :
    newfile env b =
      (.error e,
        { b with fh := none, objectid := (b.objectid + 1) % 2 ^ 32 }) := by
  obtain ⟨s, c, f, o, d, i⟩ := env
  simp only at hs hc hf ho
  subst hs; subst hc; subst hf; subst ho
  rfl

theorem newfile_desc_err (env : Env) (b : WT_BLOCK) (e : Err)
    (hs : env.scr_alloc = .ok ()) (hc : env.close_ret = .ok ())
    (hf : env.buf_fmt = .ok ()) (ho : env.open_ret = .ok ())
    (hd : env.desc_write = .error e) :
    newfile env b =
      (.error e,
        { b with
            fh := some (blockFilename b.name ((b.objectid + 1) % 2 ^ 32))
            objectid := (b.objectid + 1) % 2 ^ 32 }) := by
  obtain ⟨s, c, f, o, d, i⟩ := env
  simp only at hs hc hf ho hd
  subst hs; subst hc; subst hf; subst ho; subst hd
  rfl

-- Decimal rendering bounds -------------------------------------------------

theorem decDigitsF_length_le (fuel : Nat) :
    ∀ k n : Nat, n < 10 ^ k → 1 ≤ k → k ≤ fuel →
      (decDigitsF fuel n).length ≤ k := by
  induction fuel with
  | zero => intro k n _ hk hfuel; omega
  | succ m ih =>
    intro k n hn hk _
    by_cases h10 : n < 10
    · simp [decDigitsF, h10]
      omega
    · have hk2 : 2 ≤ k := by
        by_contra hcon
        have : k = 1 := by omega
        subst this
        simp at hn
        omega
      have hdiv : n / 10 < 10 ^ (k - 1) := by
        have hpow : 10 ^ (k - 1) * 10 = 10 ^ k := by
          have : k - 1 + 1 = k := by omega
          calc 10 ^ (k - 1) * 10 = 10 ^ (k - 1 + 1) := by rw [pow_succ]
            _ = 10 ^ k := by rw [this]
        have := (Nat.div_lt_iff_lt_mul (by omega : 0 < 10)).2
          (by rw [hpow]; exact hn)
        exact this
      have hrec := ih (k - 1) (n / 10) hdiv (by omega) (by omega)
      simp [decDigitsF, h10]
      omega

theorem fmtU32w8_length_of_lt (n : Nat) (h : n < 10 ^ 8) :
    (fmtU32w8 n).length = 8 := by
  have hlen : (decDigits n).length ≤ 8 :=
    decDigitsF_length_le 10 8 n h (by omega) (by omega)
  simp only [fmtU32w8, decDigits] at *
  simp [String.length, List.length_append, List.length_replicate]
  omega

-- Concrete fixtures for witnesses and counterexamples ----------------------

/-- A block handle that does not participate in tiering
(`has_objects = false`), sitting on object 0. -/
def b0 : WT_BLOCK :=
  { name := "t", objectid := 0, fh := some "t.00000000", allocsize := 4096
    file_flags := 0, size := 4096, has_objects := false
    live := .ready "live" }

/-- A tiering-enabled block handle on object 0. -/
def bT : WT_BLOCK := { b0 with has_objects := true }

/-- A tiering-enabled handle at `objectid = 2 ^ 32 - 2`, two increments away
from the `uint32_t` wraparound. -/
def bWrap : WT_BLOCK := { bT with objectid := 2 ^ 32 - 2 }

/-- A tiering-enabled handle at `objectid = 99999999`, whose next object id
`10 ^ 8` no longer fits in 8 decimal digits. -/
def bPad : WT_BLOCK := { bT with objectid := 99999999 }

/-- Every primitive succeeds except the file open, which fails with code 5
(an injected I/O error at the open step). -/
def envOpenFail : Env := { envOK with open_ret := .error 5 }

/-- Every primitive succeeds except the descriptor write, which fails with
code 7. -/
def envDescFail : Env := { envOK with desc_write := .error 7 }

-- C1 -----------------------------------------------------------------------

/-- C1 counterexample: the claim says that with `hasObjects == false` both
`flush` and `rollToNewFile` are no-ops that return success without
modifying `objectId` or the file handle.  On the concrete handle `b0`
(`has_objects = false`) with all primitives succeeding, both calls return
success but change `objectid` from 0 to 1 and replace the file handle:
only `__wt_block_tiered_load` tests `block->has_objects`
(block_tiered.c:37); `__wt_block_tiered_flush` and
`__wt_block_tiered_newfile` never consult it. -/
theorem C1_counterexample :
    b0.has_objects = false ∧
    (newfile envOK b0).1 = .ok () ∧
    (newfile envOK b0).2.objectid ≠ b0.objectid ∧
    (newfile envOK b0).2.fh ≠ b0.fh ∧
    (flush envOK b0 [] 0).2.1.objectid ≠ b0.objectid := by
  decide

/-- C1 amended: `hasObjects == false` makes only `load` a no-op returning
success with the handle completely unchanged; `flush` and `rollToNewFile`
do not consult `hasObjects` and perform the full rollover regardless (in
particular, when all primitives succeed they still advance `objectid`). -/
theorem C1_amended (env : Env) (b : WT_BLOCK) (ci : WT_BLOCK_CKPT)
    (cookie : List Nat) (csize : Nat) (h : b.has_objects = false) :
    load env b ci = (.ok (), b) ∧
    flush env b cookie csize =
      ((newfile env b).1, (newfile env b).2, cookie, csize) ∧
    (envAllOk env = true →
      (newfile env b).2.objectid = (b.objectid + 1) % 2 ^ 32) := by
  refine ⟨by simp [load, h], rfl, fun hok => ?_⟩
  rw [newfile_allOk env b hok]
  simp [rollState]

/-- C1 amended, witnessed at `b0` (`has_objects = false`) with all
primitives succeeding. -/
theorem C1_amended_witness :
    load envOK b0 ⟨7⟩ = (.ok (), b0) ∧
    flush envOK b0 [] 0 =
      ((newfile envOK b0).1, (newfile envOK b0).2, [], 0) ∧
    (newfile envOK b0).2.objectid = (b0.objectid + 1) % 2 ^ 32 :=
  ⟨(C1_amended envOK b0 ⟨7⟩ [] 0 rfl).1,
   (C1_amended envOK b0 ⟨7⟩ [] 0 rfl).2.1,
   (C1_amended envOK b0 ⟨7⟩ [] 0 rfl).2.2 (by decide)⟩

-- C8 -----------------------------------------------------------------------

/-- C8: for every handle with `hasObjects == false` and every checkpoint,
`load` returns success and leaves the handle (in particular its `objectid`
and file handle) completely unchanged (block_tiered.c:37-43: the body is
skipped and 0 is returned). -/
theorem C8_load_noop (env : Env) (b : WT_BLOCK) (ci : WT_BLOCK_CKPT)
    (h : b.has_objects = false) :
    load env b ci = (.ok (), b) := by
  simp [load, h]

/-- C8 witnessed at `b0` with an arbitrary checkpoint. -/
theorem C8_load_noop_witness : load envOK b0 ⟨42⟩ = (.ok (), b0) :=
  C8_load_noop envOK b0 ⟨42⟩ rfl

-- C7 -----------------------------------------------------------------------

/-- C7: after every successful `rollToNewFile`, the handle's `size` equals
its (unchanged) `allocsize`: `block->size = block->allocsize` runs at
block_tiered.c:78 on the success path and nothing writes `size` after it. -/
theorem C7_size_after_roll (env : Env) (b : WT_BLOCK)
    (h : (newfile env b).1 = .ok ()) :
    (newfile env b).2.size = (newfile env b).2.allocsize ∧
    (newfile env b).2.allocsize = b.allocsize := by
  have hok := (newfile_ok_iff env b).1 h
  rw [newfile_allOk env b hok]
  simp [rollState]

/-- C7 witnessed at `bT` with all primitives succeeding. -/
theorem C7_size_after_roll_witness :
    (newfile envOK bT).2.size = (newfile envOK bT).2.allocsize ∧
    (newfile envOK bT).2.allocsize = bT.allocsize :=
  C7_size_after_roll envOK bT (by decide)

-- C5 -----------------------------------------------------------------------

/-- C5: every call of `flush` is a direct tail call to `rollToNewFile`
(block_tiered.c:23), so a successful `flush` leaves the handle on a freshly
opened next object; the cookie out-parameters are passed through untouched
in every case (the stub writes nothing into them, on success or failure),
so the (possibly empty) cookie value returned on success is exactly the
buffer handed in, and a failed flush never populates a cookie. -/
theorem C5_flush_always_rolls (env : Env) (b : WT_BLOCK)
    (cookie : List Nat) (csize : Nat) :
    flush env b cookie csize =
      ((newfile env b).1, (newfile env b).2, cookie, csize) ∧
    ((flush env b cookie csize).1 = .ok () →
      (flush env b cookie csize).2.1.objectid = (b.objectid + 1) % 2 ^ 32 ∧
      (flush env b cookie csize).2.1.fh =
        some (blockFilename b.name ((b.objectid + 1) % 2 ^ 32))) := by
  refine ⟨rfl, fun hsucc => ?_⟩
  have hok : envAllOk env = true := by
    have : (newfile env b).1 = .ok () := hsucc
    exact (newfile_ok_iff env b).1 this
  show (newfile env b).2.objectid = _ ∧ (newfile env b).2.fh = _
  rw [newfile_allOk env b hok]
  simp [rollState]

/-- C5 witnessed at `bT` with all primitives succeeding and an empty
cookie buffer. -/
theorem C5_flush_always_rolls_witness :
    flush envOK bT [] 0 =
      ((newfile envOK bT).1, (newfile envOK bT).2, [], 0) ∧
    ((flush envOK bT [] 0).2.1.objectid = (bT.objectid + 1) % 2 ^ 32 ∧
      (flush envOK bT [] 0).2.1.fh =
        some (blockFilename bT.name ((bT.objectid + 1) % 2 ^ 32))) :=
  ⟨(C5_flush_always_rolls envOK bT [] 0).1,
   (C5_flush_always_rolls envOK bT [] 0).2 (by decide)⟩

-- C2 -----------------------------------------------------------------------

/-- C2 counterexample: the claim requires the id sequence of successful
rollovers to be `k+1, ..., k+N`, strictly increasing with no repeats, "for
every starting k at which the calls succeed".  Starting at
`k = 2 ^ 32 - 2`, two rollovers succeed (nothing in
`__wt_block_tiered_newfile` prevents success at the wrap), yet
`++block->objectid` is `uint32_t` arithmetic, so the resulting ids are
`2 ^ 32 - 1` and then `0`: the second id is smaller than the first, the
sequence is not strictly increasing, and the second id is not `k + 2`. -/
theorem C2_counterexample :
    (newfile envOK (rollN envOK bWrap 0)).1 = .ok () ∧
    (newfile envOK (rollN envOK bWrap 1)).1 = .ok () ∧
    (rollN envOK bWrap 1).objectid = 2 ^ 32 - 1 ∧
    (rollN envOK bWrap 2).objectid = 0 ∧
    ¬ (rollN envOK bWrap 1).objectid < (rollN envOK bWrap 2).objectid := by
  decide

/-- C2 amended: as long as no `uint32_t` wraparound occurs, i.e. whenever
`k + N < 2 ^ 32`, a sequence of `N` rollovers with succeeding primitives
starting at `objectid = k` succeeds at every step and yields exactly the
ids `k+1, ..., k+N`, strictly increasing with no repeats; at the wrap the
id sequence continues as `(k+i) mod 2 ^ 32` instead. -/
theorem C2_amended (env : Env) (b : WT_BLOCK) (N : Nat)
    (hok : envAllOk env = true) (hrange : b.objectid + N < 2 ^ 32) :
    (∀ i, i < N → (newfile env (rollN env b i)).1 = .ok ()) ∧
    (∀ i, i ≤ N → (rollN env b i).objectid = b.objectid + i) ∧
    (∀ i j, i < j → j ≤ N →
      (rollN env b i).objectid < (rollN env b j).objectid) := by
  have key : ∀ i, i ≤ N → (rollN env b i).objectid = b.objectid + i := by
    intro i
    induction i with
    | zero => intro _; simp [rollN]
    | succ n ih =>
      intro hn
      have hrec := ih (Nat.le_of_succ_le hn)
      show (newfile env (rollN env b n)).2.objectid = b.objectid + (n + 1)
      rw [newfile_allOk env _ hok]
      simp only [rollState, hrec]
      rw [Nat.mod_eq_of_lt (by omega)]
      omega
  refine ⟨fun i _ => ?_, key, fun i j hij hj => ?_⟩
  · rw [newfile_allOk env _ hok]
  · rw [key i (by omega), key j hj]
    omega

/-- C2 amended, witnessed: three rollovers from `objectid = 0` on `bT`
succeed at the first step and land on id 3. -/
theorem C2_amended_witness :
    (newfile envOK (rollN envOK bT 0)).1 = .ok () ∧
    (rollN envOK bT 3).objectid = bT.objectid + 3 ∧
    (rollN envOK bT 1).objectid < (rollN envOK bT 3).objectid :=
  ⟨(C2_amended envOK bT 3 (by decide) (by decide)).1 0 (by decide),
   (C2_amended envOK bT 3 (by decide) (by decide)).2.1 3 (by decide),
   (C2_amended envOK bT 3 (by decide) (by decide)).2.2 1 3 (by decide)
     (by decide)⟩

-- C3 -----------------------------------------------------------------------

/-- C3: on a `has_objects = true` handle, a successful `load` with
checkpoint `rootObjectId = r` seeds `objectid` with `r`
(block_tiered.c:38) and then rolls over (line 41), leaving `objectid` at
the `uint32_t` successor of `r` — that is `(r + 1) mod 2 ^ 32`, which is
`r + 1` for every non-wrapping `r` — with the new object's file open. -/
theorem C3_load_seed_then_roll (env : Env) (b : WT_BLOCK) (r : Nat)
    (hobj : b.has_objects = true) (hok : envAllOk env = true) :
    load env b ⟨r⟩ = newfile env { b with objectid := r } ∧
    (load env b ⟨r⟩).1 = .ok () ∧
    (load env b ⟨r⟩).2.objectid = (r + 1) % 2 ^ 32 ∧
    (load env b ⟨r⟩).2.fh =
      some (blockFilename b.name ((r + 1) % 2 ^ 32)) ∧
    (r + 1 < 2 ^ 32 → (load env b ⟨r⟩).2.objectid = r + 1) := by
  have hload : load env b ⟨r⟩ = newfile env { b with objectid := r } := by
    simp [load, hobj]
  refine ⟨hload, ?_, ?_, ?_, ?_⟩ <;>
    rw [hload, newfile_allOk env _ hok] <;>
    simp [rollState]

/-- C3 witnessed: `load` on `bT` from a checkpoint with root object id 7
succeeds and leaves the handle at id 8 with `t.00000008` open. -/
theorem C3_load_seed_then_roll_witness :
    load envOK bT ⟨7⟩ = newfile envOK { bT with objectid := 7 } ∧
    (load envOK bT ⟨7⟩).1 = .ok () ∧
    (load envOK bT ⟨7⟩).2.objectid = (7 + 1) % 2 ^ 32 ∧
    (load envOK bT ⟨7⟩).2.fh =
      some (blockFilename bT.name ((7 + 1) % 2 ^ 32)) ∧
    (7 + 1 < 2 ^ 32 → (load envOK bT ⟨7⟩).2.objectid = 7 + 1) :=
  C3_load_seed_then_roll envOK bT 7 rfl (by decide)

-- C4 -----------------------------------------------------------------------

/-- C4: when `rollToNewFile` fails at the file-open step (the earlier
steps having succeeded), the call returns that I/O error with the
`uint32_t` increment of `objectid` already performed and not rolled back
(`++block->objectid` at block_tiered.c:67 precedes the open at lines
71-74, and the `err` path undoes nothing); a subsequent retry whose
primitives all succeed then succeeds and advances `objectid` once more,
to the successor of the id left by the failed attempt. -/
theorem C4_open_fail_then_retry (envF envR : Env) (b : WT_BLOCK) (e : Err)
    (hs : envF.scr_alloc = .ok ()) (hc : envF.close_ret = .ok ())
    (hf : envF.buf_fmt = .ok ()) (ho : envF.open_ret = .error e)
    (hok : envAllOk envR = true) :
    (newfile envF b).1 = .error e ∧
    (newfile envF b).2.objectid = (b.objectid + 1) % 2 ^ 32 ∧
    (newfile envR (newfile envF b).2).1 = .ok () ∧
    (newfile envR (newfile envF b).2).2.objectid =
      ((newfile envF b).2.objectid + 1) % 2 ^ 32 := by
  have hfail := newfile_open_err envF b e hs hc hf ho
  rw [hfail]
  refine ⟨rfl, rfl, ?_, ?_⟩
  · rw [newfile_allOk envR _ hok]
  · rw [newfile_allOk envR _ hok]
    simp [rollState]

/-- C4 witnessed: on `bT` (id 0), an attempt whose open fails with error 5
returns error 5 and leaves id 1; a clean retry succeeds and leaves id 2. -/
theorem C4_open_fail_then_retry_witness :
    (newfile envOpenFail bT).1 = .error 5 ∧
    (newfile envOpenFail bT).2.objectid = (bT.objectid + 1) % 2 ^ 32 ∧
    (newfile envOK (newfile envOpenFail bT).2).1 = .ok () ∧
    (newfile envOK (newfile envOpenFail bT).2).2.objectid =
      ((newfile envOpenFail bT).2.objectid + 1) % 2 ^ 32 :=
  C4_open_fail_then_retry envOpenFail envOK bT 5 rfl rfl rfl rfl (by decide)

-- C6 -----------------------------------------------------------------------

/-- C6 counterexample: the claim says the new object's filename renders the
id as a zero-padded 8-DIGIT decimal number.  The format is printf
`"%s.%08" PRIu32` (block_tiered.c:68), whose `08` is a MINIMUM field
width: rolling the concrete handle `bPad` (`objectid = 99999999`) succeeds
and produces the filename `t.100000000`, whose id field `100000000` has 9
digits, not 8. -/
theorem C6_counterexample :
    (newfile envOK bPad).1 = .ok () ∧
    (newfile envOK bPad).2.objectid = 100000000 ∧
    (newfile envOK bPad).2.fh = some ("t." ++ fmtU32w8 100000000) ∧
    fmtU32w8 100000000 = "100000000" ∧
    (fmtU32w8 100000000).length ≠ 8 := by
  decide

/-- C6 amended: the new object's filename is the table's stable name, a
dot, and the new `objectid` rendered in decimal, zero-padded to a minimum
field width of 8 (printf `%08u`); the rendering is exactly 8 digits
whenever the new id is below `10 ^ 8`, and wider otherwise. -/
theorem C6_amended (env : Env) (b : WT_BLOCK) (hok : envAllOk env = true) :
    (newfile env b).2.fh =
      some (b.name ++ "." ++ fmtU32w8 ((b.objectid + 1) % 2 ^ 32)) ∧
    ((b.objectid + 1) % 2 ^ 32 < 10 ^ 8 →
      (fmtU32w8 ((b.objectid + 1) % 2 ^ 32)).length = 8) := by
  rw [newfile_allOk env b hok]
  exact ⟨by simp [rollState, blockFilename], fun hr => fmtU32w8_length_of_lt _ hr⟩

/-- C6 amended, witnessed at `bT`: the new filename is `t.00000001`, with
an 8-digit id field. -/
theorem C6_amended_witness :
    (newfile envOK bT).2.fh =
      some (bT.name ++ "." ++ fmtU32w8 ((bT.objectid + 1) % 2 ^ 32)) ∧
    (fmtU32w8 ((bT.objectid + 1) % 2 ^ 32)).length = 8 :=
  ⟨(C6_amended envOK bT (by decide)).1,
   (C6_amended envOK bT (by decide)).2 (by decide)⟩

-- C9 -----------------------------------------------------------------------

/-- C9: each fallible step of `rollToNewFile` — scratch allocation, close
of the old handle, filename formatting, open through the routing scope,
descriptor write — short-circuits to the `err` label on failure
(block_tiered.c:58-76), so the first failing step's own error is returned
to the caller, the steps after it never run (their state effects are
absent), and no step is consulted a second time (each primitive outcome in
`Env` is read at most once along the straight-line control flow). -/
theorem C9_early_return (env : Env) (b : WT_BLOCK) (e : Err) :
    (env.scr_alloc = .error e → newfile env b = (.error e, b)) ∧
    (env.scr_alloc = .ok () → env.close_ret = .error e →
      newfile env b = (.error e, b)) ∧
    (env.scr_alloc = .ok () → env.close_ret = .ok () →
      env.buf_fmt = .error e →
      newfile env b =
        (.error e,
          { b with fh := none, objectid := (b.objectid + 1) % 2 ^ 32 })) ∧
    (env.scr_alloc = .ok () → env.close_ret = .ok () →
      env.buf_fmt = .ok () → env.open_ret = .error e →
      newfile env b =
        (.error e,
          { b with fh := none, objectid := (b.objectid + 1) % 2 ^ 32 })) ∧
    (env.scr_alloc = .ok () → env.close_ret = .ok () →
      env.buf_fmt = .ok () → env.open_ret = .ok () →
      env.desc_write = .error e →
      newfile env b =
        (.error e,
          { b with
              fh := some (blockFilename b.name ((b.objectid + 1) % 2 ^ 32))
              objectid := (b.objectid + 1) % 2 ^ 32 })) :=
  ⟨fun hs => newfile_scr_err env b e hs,
   fun hs hc => newfile_close_err env b e hs hc,
   fun hs hc hf => newfile_fmt_err env b e hs hc hf,
   fun hs hc hf ho => newfile_open_err env b e hs hc hf ho,
   fun hs hc hf ho hd => newfile_desc_err env b e hs hc hf ho hd⟩

/-- C9 witnessed: with an injected failure (code 7) at the descriptor
write on `bT`, the call returns error 7 having closed the old handle,
advanced the id to 1 and opened `t.00000001`, and nothing later ran. -/
theorem C9_early_return_witness :
    newfile envDescFail bT =
      (.error 7,
        { bT with
            fh := some (blockFilename bT.name ((bT.objectid + 1) % 2 ^ 32))
            objectid := (bT.objectid + 1) % 2 ^ 32 }) :=
  (C9_early_return envDescFail bT 7).2.2.2.2 rfl rfl rfl rfl rfl

-- C10 ----------------------------------------------------------------------

/-- C10: if `rollToNewFile` fails at or before the descriptor write (i.e.
any of scratch allocation, close, formatting, open or descriptor write
fails), the previous live checkpoint state `block->live` is left exactly
as it was; the `__wt_block_ckpt_destroy` / `__wt_block_ckpt_init` pair
(block_tiered.c:79-80) runs only once every step up to and including the
descriptor write has succeeded, and then `live` is the reconstructed
state — freshly initialized with tag `"live"`, or torn down when the
re-initialization itself fails. -/
theorem C10_live_only_after_desc (env : Env) (b : WT_BLOCK) :
    (envPreCkptOk env = false → (newfile env b).2.live = b.live) ∧
    (envPreCkptOk env = true →
      (newfile env b).2.live =
        match env.ckpt_init with
        | .ok _ => .ready "live"
        | .error _ => .destroyed) := by
  obtain ⟨s, c, f, o, d, i⟩ := env
  cases s <;> cases c <;> cases f <;> cases o <;> cases d <;> cases i <;>
    simp [newfile, envPreCkptOk, Except.isOk, Except.toBool]

/-- C10 witnessed: a descriptor-write failure on `bT` leaves the live
checkpoint state untouched. -/
theorem C10_live_only_after_desc_witness :
    (newfile envDescFail bT).2.live = bT.live :=
  (C10_live_only_after_desc envDescFail bT).1 (by decide)
